import Mathlib

/-!
Verification of the ChineseAICoaching backend core services.

The Python services are shallowly embedded:
* `backend/app/services/analysis_service.py` — engagement scoring and
  insight generation with deterministic fallback;
* `backend/app/services/lesson_generator.py` — lesson generation and
  refinement, and the structured-output parser `_parse_lesson_response`;
* `backend/app/services/document_service.py` — format dispatch and
  plain-text decoding;
* `backend/app/services/ai_service.py` — provider dispatch.

Python strings are modelled as `String` (operating on `String.data`,
i.e. `List Char`); byte buffers as `List (Fin 256)`; JSON values as the
inductive `Json` below; Python dicts carrying JSON as association lists
in insertion order.  External library calls (`json.loads`, `json.dumps`,
the HTTP provider clients, `bytes.decode("utf-8")`, `mimetypes`) are
oracles passed as function parameters; everything written in the
repository itself is translated definition-by-definition.
-/

/-- Python whitespace for `str.strip()` (ASCII range). -/
def pyIsSpace (c : Char) : Bool :=
  c = ' ' || c = '\t' || c = '\n' || c = '\r' || c = '\x0b' || c = '\x0c'

/-- Python `str.strip()` on the character list of a string. -/
def pyStripData (cs : List Char) : List Char :=
  ((cs.dropWhile pyIsSpace).reverse.dropWhile pyIsSpace).reverse

/-- Python `str.strip()`. -/
def pyStrip (s : String) : String :=
  ⟨pyStripData s.data⟩

/-- Python `str.lower()` (ASCII case folding, as used on file extensions). -/
def pyLower (s : String) : String :=
  ⟨s.data.map Char.toLower⟩

/-- Python `pat in s` substring test on character lists. -/
def containsSub (pat : List Char) : List Char → Bool
  | [] => pat.isEmpty
  | c :: rest => pat.isPrefixOf (c :: rest) || containsSub pat rest

/-! ## JSON values and Python dict operations -/

/-- A JSON value, as produced by `json.loads`. -/
inductive Json where
  | null : Json
  | bool : Bool → Json
  | num : Int → Json
  | str : String → Json
  | arr : List Json → Json
  | obj : List (String × Json) → Json

/-- Python `d[k]` lookup on a dict in insertion order (`None` when absent). -/
def dictGet : List (String × Json) → String → Option Json
  | [], _ => none
  | (k', v) :: rest, k => if k' = k then some v else dictGet rest k

/-- Python `k in d` key membership. -/
def dictHas (kvs : List (String × Json)) (k : String) : Bool :=
  kvs.any (fun p => p.1 = k)

/-- Python `d.setdefault(k, v)`: insert at the end only when the key is absent. -/
def dictSetdefault (kvs : List (String × Json)) (k : String) (v : Json) :
    List (String × Json) :=
  if dictHas kvs k then kvs else kvs ++ [(k, v)]

/-- Python `d[k] = v`: overwrite in place, else append. -/
def dictSet : List (String × Json) → String → Json → List (String × Json)
  | [], k, v => [(k, v)]
  | (k', v') :: rest, k, v =>
    if k' = k then (k, v) :: rest else (k', v') :: dictSet rest k v

/-- Lookup on a JSON value when it is an object. -/
def jsonGet (j : Json) (k : String) : Option Json :=
  match j with
  | .obj kvs => dictGet kvs k
  | _ => none

/-- Key membership on a JSON value when it is an object. -/
def jsonHas (j : Json) (k : String) : Bool :=
  match j with
  | .obj kvs => dictHas kvs k
  | _ => false

/-! ## AnalysisService: engagement scoring
(`analysis_service.py`, `_calculate_engagement_score`) -/

/-- `_calculate_engagement_score`: sequential accumulation exactly as in the
source — session frequency, lesson completion, message activity, message
quality, then `min(score, 100.0)`.  The counters are the database counts
(`total_sessions`, `lessons_completed`, `total_messages`), the quality signal
is `pattern_analysis.get("avg_message_length", 0)`. -/
def calculateEngagementScore (totalSessions lessonsCompleted totalMessages : ℕ)
    (avgMessageLength : ℚ) : ℚ :=
  let score : ℚ := 0
  let score := score + min ((totalSessions : ℚ) * 5) 40
  let score := score + min ((lessonsCompleted : ℚ) * 10) 30
  let score := score + min ((totalMessages : ℚ) * 2) 20
  let score :=
    if avgMessageLength > 50 then score + 10
    else if avgMessageLength > 20 then score + 5
    else score
  min score 100

/-- Modelled from the spec's words (§4.5 Scoring), for comparison with
`calculateEngagementScore`: the weighted sum
`min(totalSessions*5,40) + min(lessonsCompleted*10,30) + min(totalMessages*2,20)
+ quality`, with the final sum clamped to the interval `[0, 100]`. -/
def specEngagementScore (totalSessions lessonsCompleted totalMessages : ℕ)
    (avgMessageLength : ℚ) : ℚ :=
  let total := min ((totalSessions : ℚ) * 5) 40 + min ((lessonsCompleted : ℚ) * 10) 30
    + min ((totalMessages : ℚ) * 2) 20
    + (if avgMessageLength > 50 then (10 : ℚ) else if avgMessageLength > 20 then 5 else 0)
  max 0 (min total 100)

/-- The message-quality component in isolation. -/
def engQuality (avgMessageLength : ℚ) : ℚ :=
  if avgMessageLength > 50 then 10 else if avgMessageLength > 20 then 5 else 0

/-! ## LessonGeneratorService: structured-output parsing
(`lesson_generator.py`, `_parse_lesson_response`) -/

/-- Fence stripping of `_parse_lesson_response` on the character list:
`strip()`, drop a leading ```` ```json ```` (7 characters) or ```` ``` ````
(3 characters), drop a trailing ```` ``` ````, `strip()` again. -/
def cleanData (cs : List Char) : List Char :=
  let c1 := pyStripData cs
  let c2 :=
    if "```json".data.isPrefixOf c1 then c1.drop 7
    else if "```".data.isPrefixOf c1 then c1.drop 3
    else c1
  let c3 := if "```".data.isSuffixOf c2 then c2.take (c2.length - 3) else c2
  pyStripData c3

/-- Fence stripping of `_parse_lesson_response` on strings. -/
def cleanResponse (s : String) : String :=
  ⟨cleanData s.data⟩

/-- Failure modes of the lesson pipeline (each raised as a `ValueError` whose
message carries the shown payload). -/
inductive LessonError where
  | invalidJson (rawResponse : String)
  | missingField (field : String)
  | parseFailure
  | providerFailure
deriving DecidableEq

/-- The `required_fields` list of `_parse_lesson_response`. -/
def requiredFields : List String :=
  ["title", "description", "scenario", "objectives", "content"]

/-- Python `field not in lesson_data` for an arbitrary JSON value:
key membership on dicts, element membership on lists, substring on strings,
`TypeError` (modelled as `.error`) otherwise. -/
def pyFieldNotIn (f : String) : Json → Except Unit Bool
  | .obj kvs => .ok (!dictHas kvs f)
  | .arr xs => .ok (!xs.any (fun j => match j with | .str s => s = f | _ => false))
  | .str s => .ok (!containsSub f.data s.data)
  | _ => .error ()

/-- The `for field in required_fields` loop: the first field reported missing,
or a `TypeError` from the membership test. -/
def findMissingField : List String → Json → Except Unit (Option String)
  | [], _ => .ok none
  | f :: rest, j =>
    match pyFieldNotIn f j with
    | .error _ => .error ()
    | .ok true => .ok (some f)
    | .ok false => findMissingField rest j

/-- The three `setdefault` calls of `_parse_lesson_response`, in source order. -/
def applyLessonDefaults (kvs : List (String × Json)) : List (String × Json) :=
  dictSetdefault
    (dictSetdefault
      (dictSetdefault kvs "difficulty_level" (.num 2))
      "estimated_duration" (.num 30))
    "tags" (.arr [])

/-- `_parse_lesson_response`: fence strip, `json.loads` (the oracle
`jsonLoads`, `none` for `JSONDecodeError`), required-field validation,
defaults.  A decode failure keeps the raw response for diagnostics
(`logger.debug` plus the raised message); a missing required field raises
naming the field; any other exception (membership `TypeError`, `setdefault`
on a non-dict) becomes the generic parse failure. -/
def parseLessonResponse (jsonLoads : String → Option Json) (aiResponse : String) :
    Except LessonError Json :=
  match jsonLoads (cleanResponse aiResponse) with
  | none => .error (.invalidJson aiResponse)
  | some data =>
    match findMissingField requiredFields data with
    | .error _ => .error .parseFailure
    | .ok (some f) => .error (.missingField f)
    | .ok none =>
      match data with
      | .obj kvs => .ok (.obj (applyLessonDefaults kvs))
      | _ => .error .parseFailure

/-! ## AIService gateway model (`ai_service.py`) -/

/-- The uniform provider result: `{"content": ..., "tokens_used": ...}`. -/
structure GatewayResponse where
  content : String
  tokensUsed : ℕ

/-- One call into `AIService.generate_response`, as assembled by a caller. -/
structure GatewayRequest where
  messages : List (String × String)
  provider : String
  systemPrompt : Option String
  temperature : ℚ
  maxTokens : ℕ

/-- Errors of `generate_response`: the explicit unsupported-provider
`ValueError`, or a failure propagated from a provider adapter. -/
inductive AIServiceError where
  | unsupportedProvider (tag : String)
  | providerFailure (message : String)
deriving DecidableEq

/-- The three per-provider adapters (`_openai_response`,
`_anthropic_response`, `_deepseek_response`); each performs network I/O and
is modelled as an oracle from the formatted arguments to a result. -/
structure ProviderAdapters where
  openai : List (String × String) → Option String → ℚ → ℕ →
    Except String GatewayResponse
  anthropic : List (String × String) → Option String → ℚ → ℕ →
    Except String GatewayResponse
  deepseek : List (String × String) → Option String → ℚ → ℕ →
    Except String GatewayResponse

/-- `AIService.generate_response`: dispatch on the provider tag
(`AIModelProvider` is a `str` enum with values `"openai"`, `"anthropic"`,
`"deepseek"`); any other tag raises
`ValueError("Unsupported AI provider: ...")` without touching any adapter. -/
def generateResponse (adapters : ProviderAdapters)
    (messages : List (String × String)) (provider : String)
    (systemPrompt : Option String) (temperature : ℚ) (maxTokens : ℕ) :
    Except AIServiceError GatewayResponse :=
  if provider = "openai" then
    (adapters.openai messages systemPrompt temperature maxTokens).mapError .providerFailure
  else if provider = "anthropic" then
    (adapters.anthropic messages systemPrompt temperature maxTokens).mapError .providerFailure
  else if provider = "deepseek" then
    (adapters.deepseek messages systemPrompt temperature maxTokens).mapError .providerFailure
  else
    .error (.unsupportedProvider provider)

/-! ## LessonGeneratorService: generation and refinement -/

/-- Python `d[k] = v` on a JSON value: assignment only works on dicts
(`TypeError` otherwise, modelled as `.error`). -/
def jsonSetItem : Json → String → Json → Except Unit Json
  | .obj kvs, k, v => .ok (.obj (dictSet kvs k v))
  | _, _, _ => .error ()

/-- `_build_document_context`: one header line per document
(1-based index and filename), the document content, and a blank separator,
joined with newlines. -/
def buildDocumentContext (documents : List (String × String)) : String :=
  String.intercalate "\n"
    ((documents.enum.map (fun p =>
      ["--- Document " ++ toString (p.1 + 1) ++ ": " ++ p.2.1 ++ " ---", p.2.2, ""])).flatten)

/-- `_build_lesson_generation_prompt`: the category-specific system prompt
declaring the exact output schema (braces of the JSON example written
escaped). -/
def buildLessonGenerationPrompt (lessonType : String) : String :=
  String.intercalate "\n"
    [ "You are an expert instructional designer and business coach specializing in creating engaging, practical learning experiences."
    , ""
    , "Your task is to generate a comprehensive coaching lesson based on provided documents and user requirements."
    , ""
    , "The lesson should be for the category: " ++ lessonType
    , ""
    , "Generate the lesson with the following structure in JSON format:"
    , ""
    , "\x7b"
    , "    \"title\": \"Clear, engaging title for the lesson\","
    , "    \"description\": \"Brief description of what the lesson covers (2-3 sentences)\","
    , "    \"scenario\": \"A realistic, detailed scenario that learners will work through (3-5 paragraphs)\","
    , "    \"objectives\": ["
    , "        \"Specific learning objective 1\","
    , "        \"Specific learning objective 2\","
    , "        \"Specific learning objective 3\""
    , "    ],"
    , "    \"content\": \x7b"
    , "        \"introduction\": \"Engaging introduction to the scenario and context\","
    , "        \"key_concepts\": ["
    , "            \x7b\"concept\": \"Concept name\", \"description\": \"Detailed explanation\"\x7d,"
    , "            \x7b\"concept\": \"Concept name\", \"description\": \"Detailed explanation\"\x7d"
    , "        ],"
    , "        \"practice_questions\": ["
    , "            \"Thought-provoking question 1\","
    , "            \"Thought-provoking question 2\","
    , "            \"Thought-provoking question 3\""
    , "        ],"
    , "        \"coaching_tips\": ["
    , "            \"Tip 1 for coaches\","
    , "            \"Tip 2 for coaches\""
    , "        ]"
    , "    \x7d,"
    , "    \"difficulty_level\": 1-5 (integer),"
    , "    \"estimated_duration\": estimated time in minutes (integer),"
    , "    \"tags\": [\"relevant\", \"tags\", \"for\", \"searchability\"]"
    , "\x7d"
    , ""
    , "Requirements:"
    , "- Base the lesson content on the provided documents"
    , "- Make scenarios realistic and relatable to business professionals"
    , "- Ensure objectives are specific, measurable, and achievable"
    , "- Include practical, actionable insights"
    , "- Use professional but conversational tone"
    , "- Focus on real-world application"
    , ""
    , "Return ONLY valid JSON without any markdown formatting or code blocks." ]

/-- `_build_user_message`: the user prompt, the optional additional context
(skipped when absent or falsy-empty, as Python truthiness does), and the
document context block. -/
def buildUserMessage (prompt : String) (documentContext : String)
    (additionalContext : Option String) : String :=
  let extra :=
    match additionalContext with
    | some ac => if ac = "" then [] else ["ADDITIONAL CONTEXT: " ++ ac, ""]
    | none => []
  String.intercalate "\n"
    (["Please generate a lesson based on the following:", "",
      "USER REQUEST: " ++ prompt, ""]
     ++ extra
     ++ ["SOURCE DOCUMENTS:", documentContext, "",
         "Generate a comprehensive lesson following the specified JSON structure."])

/-- The single gateway request assembled by `generate_lesson_from_documents`
(temperature 0.7, `max_tokens` 4000, one user message). -/
def lessonGenerationRequest (prompt : String) (documents : List (String × String))
    (lessonType : String) (provider : String) (additionalContext : Option String) :
    GatewayRequest :=
  { messages := [("user",
      buildUserMessage prompt (buildDocumentContext documents) additionalContext)]
    provider := provider
    systemPrompt := some (buildLessonGenerationPrompt lessonType)
    temperature := 7 / 10
    maxTokens := 4000 }

/-- `generate_lesson_from_documents`: build the context and prompts, call the
gateway once, parse the response, then attach `ai_provider` and
`tokens_used`.  The first component of the result is the list of gateway
requests issued during the call, in order. -/
def generateLessonFromDocuments (jsonLoads : String → Option Json)
    (gateway : GatewayRequest → Except String GatewayResponse)
    (prompt : String) (documents : List (String × String)) (lessonType : String)
    (provider : String) (additionalContext : Option String) :
    List GatewayRequest × Except LessonError Json :=
  let req := lessonGenerationRequest prompt documents lessonType provider additionalContext
  match gateway req with
  | .error _ => ([req], .error .providerFailure)
  | .ok resp =>
    match parseLessonResponse jsonLoads resp.content with
    | .error e => ([req], .error e)
    | .ok lessonData =>
      match jsonSetItem lessonData "ai_provider" (.str provider) with
      | .error _ => ([req], .error .parseFailure)
      | .ok j1 =>
        match jsonSetItem j1 "tokens_used" (.num resp.tokensUsed) with
        | .error _ => ([req], .error .parseFailure)
        | .ok j2 => ([req], .ok j2)

/-- The system prompt of `refine_lesson`. -/
def refineSystemPrompt : String :=
  String.intercalate "\n"
    [ "You are an expert instructional designer."
    , "You will receive a lesson in JSON format and instructions for refinement."
    , "Return the refined lesson in the same JSON format, maintaining the structure but improving based on the feedback." ]

/-- The user message of `refine_lesson`: the current draft serialized by
`json.dumps(..., indent=2)` (the oracle `jsonDumps`) combined with the
refinement instructions. -/
def buildRefineUserMessage (jsonDumps : List (String × Json) → String)
    (lessonData : List (String × Json)) (refinementPrompt : String) : String :=
  String.intercalate "\n"
    [ "Current Lesson:"
    , jsonDumps lessonData
    , ""
    , "Refinement Instructions:"
    , refinementPrompt
    , ""
    , "Please refine the lesson according to the instructions and return the complete updated lesson in JSON format." ]

/-- The single gateway request assembled by `refine_lesson`
(temperature 0.6, `max_tokens` 4000). -/
def refineRequest (jsonDumps : List (String × Json) → String)
    (lessonData : List (String × Json)) (refinementPrompt : String)
    (provider : String) : GatewayRequest :=
  { messages := [("user", buildRefineUserMessage jsonDumps lessonData refinementPrompt)]
    provider := provider
    systemPrompt := some refineSystemPrompt
    temperature := 3 / 5
    maxTokens := 4000 }

/-- What `refine_lesson` does with the gateway outcome: re-validate through
`_parse_lesson_response`, then attach `tokens_used`.  The prior draft is not
consulted here. -/
def refineFromResponse (jsonLoads : String → Option Json)
    (outcome : Except String GatewayResponse) : Except LessonError Json :=
  match outcome with
  | .error _ => .error .providerFailure
  | .ok resp =>
    match parseLessonResponse jsonLoads resp.content with
    | .error e => .error e
    | .ok refinedData =>
      match jsonSetItem refinedData "tokens_used" (.num resp.tokensUsed) with
      | .error _ => .error .parseFailure
      | .ok j => .ok j

/-- `refine_lesson`: serialize the current draft into a single user message,
re-invoke the gateway, and re-validate through the identical parser
contract. -/
def refineLesson (jsonLoads : String → Option Json)
    (jsonDumps : List (String × Json) → String)
    (gateway : GatewayRequest → Except String GatewayResponse)
    (lessonData : List (String × Json)) (refinementPrompt : String)
    (provider : String) : Except LessonError Json :=
  refineFromResponse jsonLoads (gateway (refineRequest jsonDumps lessonData refinementPrompt provider))

/-! ## DocumentService (`document_service.py`) -/

/-- The keys of `supported_formats` in construction order. -/
def supportedExtensions : List String :=
  [".txt", ".md", ".pdf", ".docx", ".doc", ".json", ".csv", ".xlsx", ".xls"]

/-- `pathlib.PurePath.name`: the final component — trailing slashes dropped,
then everything after the last slash. -/
def pathName (filename : String) : String :=
  ⟨((filename.data.reverse.dropWhile (· = '/')).takeWhile (· ≠ '/')).reverse⟩

/-- `pathlib.PurePath.suffix`: `name[i:]` for `i` the index of the last dot,
provided `0 < i < len(name) - 1`; otherwise the empty string. -/
def pathSuffix (filename : String) : String :=
  let name := (pathName filename).data
  let afterRev := name.reverse.takeWhile (· ≠ '.')
  if afterRev.length = name.length then ""
  else if afterRev.length = 0 then ""
  else if name.length - afterRev.length - 1 = 0 then ""
  else ⟨'.' :: afterRev.reverse⟩

/-- `DocumentService.is_supported`. -/
def isSupported (filename : String) : Bool :=
  supportedExtensions.contains (pyLower (pathSuffix filename))

/-- Failures of `parse_document`: the unsupported-format `ValueError` raised
before any decode attempt, or a wrapped decoder failure. -/
inductive DocError where
  | unsupportedFormat (ext : String)
  | parseFailed
deriving DecidableEq

/-- The dictionary returned by `parse_document`. -/
structure ParsedDoc where
  filename : String
  format : String
  content : String
  length : ℕ
  mimeType : String

/-- `DocumentService.parse_document`: extension dispatch, decode, metadata.
The per-extension decoders (PDF, DOCX, …) call external libraries and are
modelled by the oracle `decoder` (keyed by the lower-cased extension);
`mimetypes.guess_type` is the oracle `mimeGuess`. -/
def parseDocument (decoder : String → List (Fin 256) → String → Except String String)
    (mimeGuess : String → Option String)
    (fileContent : List (Fin 256)) (filename : String) :
    Except DocError ParsedDoc :=
  let ext := pyLower (pathSuffix filename)
  if supportedExtensions.contains ext then
    match decoder ext fileContent filename with
    | .error _ => .error .parseFailed
    | .ok content =>
      .ok { filename := filename
            format := ext
            content := content
            length := content.length
            mimeType := (mimeGuess filename).getD "application/octet-stream" }
  else
    .error (.unsupportedFormat ext)

/-- Latin-1 decoding of one byte: code point equal to the byte value,
guarded by code-point validity. -/
def latin1Char (b : Fin 256) : Option Char :=
  if b.val < 0xd800 then some (Char.ofNat b.val) else none

/-- Latin-1 decoding of a byte list, all-or-nothing. -/
def latin1Chars : List (Fin 256) → Option (List Char)
  | [] => some []
  | b :: t =>
    match latin1Char b, latin1Chars t with
    | some c, some cs => some (c :: cs)
    | _, _ => none

/-- Python `bytes.decode("latin-1")`. -/
def latin1Decode (bytes : List (Fin 256)) : Option String :=
  (latin1Chars bytes).map (fun cs => ⟨cs⟩)

/-- `DocumentService._parse_text`: UTF-8 first (the oracle `utf8Decode`,
`none` for `UnicodeDecodeError`), then Latin-1; the outer handler raises
`ValueError("Failed to decode text file: ...")`. -/
def parseText (utf8Decode : List (Fin 256) → Option String)
    (fileContent : List (Fin 256)) : Except String String :=
  match utf8Decode fileContent with
  | some s => .ok s
  | none =>
    match latin1Decode fileContent with
    | some s => .ok s
    | none => .error "Failed to decode text file"

/-! ## AnalysisService: insight generation
(`analysis_service.py`, `_generate_ai_insights` / `_generate_fallback_insights`) -/

/-- The dictionary returned by `_get_session_stats`. -/
structure SessionStats where
  totalSessions : ℕ
  lessonsCompleted : ℕ
  totalMessages : ℕ
  avgSessionMessages : ℚ

/-- `_generate_fallback_insights`: a fully deterministic insight dictionary;
the summary sentence is derived from the raw counters, the three lists are
fixed three-item lists.  `pattern_analysis` is accepted but unused, as in the
source. -/
def fallbackInsights (sessionStats : SessionStats)
    (patternAnalysis : List (String × Json)) : List (String × Json) :=
  let _ := patternAnalysis
  [ ("summary", .str ("User completed " ++ toString sessionStats.lessonsCompleted
      ++ " lessons across " ++ toString sessionStats.totalSessions
      ++ " sessions with " ++ toString sessionStats.totalMessages
      ++ " total interactions."))
  , ("strengths", .arr
      [ .str "Consistent engagement with the platform"
      , .str "Active participation in coaching sessions"
      , .str "Willingness to learn and develop" ])
  , ("areas_for_improvement", .arr
      [ .str "Increase session frequency for better retention"
      , .str "Complete more structured lessons"
      , .str "Engage with more diverse topics" ])
  , ("recommendations", .arr
      [ .str "Set aside regular time for coaching sessions"
      , .str "Focus on completing lesson objectives"
      , .str "Explore new coaching areas to broaden skills" ])
  , ("detailed_analysis", .obj
      [ ("engagement_level", .str "moderate")
      , ("learning_pace", .str "steady")
      , ("focus_areas", .arr [.str "general development"]) ]) ]

/-- `_generate_ai_insights` after the analysis prompt has been assembled:
the provider call and `json.loads` both sit inside `try`/`except`, and
either failure routes to `_generate_fallback_insights`; a successful decode
is returned as-is.  The prompt string only parameterizes the provider
oracle, whose outcome is `gatewayOutcome`. -/
def generateAIInsights (jsonLoads : String → Option Json)
    (gatewayOutcome : Except String GatewayResponse)
    (sessionStats : SessionStats) (patternAnalysis : List (String × Json)) : Json :=
  match gatewayOutcome with
  | .error _ => .obj (fallbackInsights sessionStats patternAnalysis)
  | .ok resp =>
    match jsonLoads resp.content with
    | none => .obj (fallbackInsights sessionStats patternAnalysis)
    | some insights => insights

/-! ## Concrete fixtures used by witnesses and counterexamples -/

/-- A `json.loads` stub decoding exactly the two payloads the fixtures use:
an object of the five required fields with an empty `objectives` list and an
out-of-range `difficulty_level`, and an object of the five required fields
alone. -/
def fixtureLoads : String → Option Json :=
  fun s =>
    if s = "GEN" then
      some (.obj
        [ ("title", .str "T"), ("description", .str "D"), ("scenario", .str "S")
        , ("objectives", .arr []), ("content", .obj [])
        , ("difficulty_level", .num 7) ])
    else if s = "REQ" then
      some (.obj
        [ ("title", .str "T"), ("description", .str "D"), ("scenario", .str "S")
        , ("objectives", .arr [.str "O1"]), ("content", .obj []) ])
    else if s = "NODESC" then
      some (.obj [("title", .str "T")])
    else if s = "\x7b\x7d" then
      some (.obj [])
    else none

/-- A gateway stub answering every request with the payload tag `"GEN"`. -/
def fixtureGatewayGen : GatewayRequest → Except String GatewayResponse :=
  fun _ => .ok { content := "GEN", tokensUsed := 5 }

/-- A gateway stub answering every request with the payload tag `"REQ"`. -/
def fixtureGatewayReq : GatewayRequest → Except String GatewayResponse :=
  fun _ => .ok { content := "REQ", tokensUsed := 5 }

/-- A `json.dumps` stub for the refinement prompt. -/
def fixtureDumps : List (String × Json) → String :=
  fun _ => "SERIALIZED"

/-- A prior draft holding explicit optional-field values
(`difficulty_level` 4, `estimated_duration` 45, one tag). -/
def fixturePriorDraft : List (String × Json) :=
  [ ("title", .str "Old title"), ("description", .str "Old description")
  , ("scenario", .str "Old scenario"), ("objectives", .arr [.str "Old objective"])
  , ("content", .obj []), ("difficulty_level", .num 4)
  , ("estimated_duration", .num 45), ("tags", .arr [.str "old"]) ]

theorem engQuality_nonneg (a : ℚ) : 0 ≤ engQuality a := by
  unfold engQuality
  split_ifs <;> norm_num

theorem engQuality_le_ten (a : ℚ) : engQuality a ≤ 10 := by
  unfold engQuality
  split_ifs <;> norm_num

theorem engQuality_mono {a a' : ℚ} (h : a ≤ a') : engQuality a ≤ engQuality a' := by
  unfold engQuality
  split_ifs <;> linarith

theorem calculateEngagementScore_eq (s l m : ℕ) (a : ℚ) :
    calculateEngagementScore s l m a =
      min (min ((s : ℚ) * 5) 40 + min ((l : ℚ) * 10) 30 + min ((m : ℚ) * 2) 20
        + engQuality a) 100 := by
  unfold calculateEngagementScore engQuality
  split_ifs <;> ring_nf

theorem engComponents_nonneg (s l m : ℕ) (a : ℚ) :
    0 ≤ min ((s : ℚ) * 5) 40 + min ((l : ℚ) * 10) 30 + min ((m : ℚ) * 2) 20
      + engQuality a := by
  have h1 : (0 : ℚ) ≤ min ((s : ℚ) * 5) 40 := le_min (by positivity) (by norm_num)
  have h2 : (0 : ℚ) ≤ min ((l : ℚ) * 10) 30 := le_min (by positivity) (by norm_num)
  have h3 : (0 : ℚ) ≤ min ((m : ℚ) * 2) 20 := le_min (by positivity) (by norm_num)
  have h4 := engQuality_nonneg a
  linarith

/-- C1: for all non-negative inputs, the engagement score computed by the code
(sequential accumulation with `min(score, 100.0)` at the end) equals the
spec's weighted sum with per-component caps, evaluated in the same fixed
order, with the final sum clamped to `[0, 100]`. -/
theorem engagement_score_matches_spec (s l m : ℕ) (a : ℚ) (_ha : 0 ≤ a) :
    calculateEngagementScore s l m a = specEngagementScore s l m a := by
  rw [calculateEngagementScore_eq]
  unfold specEngagementScore engQuality
  have h0 := engComponents_nonneg s l m a
  unfold engQuality at h0
  rw [max_eq_right]
  exact le_min h0 (by norm_num)

theorem engagement_score_matches_spec_witness :
    calculateEngagementScore 3 1 4 25 = specEngagementScore 3 1 4 25 :=
  engagement_score_matches_spec 3 1 4 25 (by norm_num)

/-- C4: the engagement score is monotone non-decreasing in each counter
independently, bounded in `[0, 100]` for all non-negative inputs, and equals
exactly 100 at the boundary input
`totalSessions = 8, lessonsCompleted = 3, totalMessages = 10, avgMessageLength = 60`. -/
theorem engagement_score_monotone_bounded :
    (∀ s s' l m (a : ℚ), s ≤ s' →
      calculateEngagementScore s l m a ≤ calculateEngagementScore s' l m a) ∧
    (∀ s l l' m (a : ℚ), l ≤ l' →
      calculateEngagementScore s l m a ≤ calculateEngagementScore s l' m a) ∧
    (∀ s l m m' (a : ℚ), m ≤ m' →
      calculateEngagementScore s l m a ≤ calculateEngagementScore s l m' a) ∧
    (∀ s l m (a a' : ℚ), a ≤ a' →
      calculateEngagementScore s l m a ≤ calculateEngagementScore s l m a') ∧
    (∀ s l m (a : ℚ), 0 ≤ a →
      0 ≤ calculateEngagementScore s l m a ∧ calculateEngagementScore s l m a ≤ 100) ∧
    calculateEngagementScore 8 3 10 60 = 100 := by
  refine ⟨?_, ?_, ?_, ?_, ?_, ?_⟩
  · intro s s' l m a h
    rw [calculateEngagementScore_eq, calculateEngagementScore_eq]
    have hs : ((s : ℚ)) * 5 ≤ ((s' : ℚ)) * 5 := by
      have : ((s : ℚ)) ≤ ((s' : ℚ)) := by exact_mod_cast h
      linarith
    exact min_le_min (by gcongr) le_rfl
  · intro s l l' m a h
    rw [calculateEngagementScore_eq, calculateEngagementScore_eq]
    have hl : ((l : ℚ)) * 10 ≤ ((l' : ℚ)) * 10 := by
      have : ((l : ℚ)) ≤ ((l' : ℚ)) := by exact_mod_cast h
      linarith
    exact min_le_min (by gcongr) le_rfl
  · intro s l m m' a h
    rw [calculateEngagementScore_eq, calculateEngagementScore_eq]
    have hm : ((m : ℚ)) * 2 ≤ ((m' : ℚ)) * 2 := by
      have : ((m : ℚ)) ≤ ((m' : ℚ)) := by exact_mod_cast h
      linarith
    exact min_le_min (by gcongr) le_rfl
  · intro s l m a a' h
    rw [calculateEngagementScore_eq, calculateEngagementScore_eq]
    exact min_le_min (by have := engQuality_mono h; linarith) le_rfl
  · intro s l m a _
    rw [calculateEngagementScore_eq]
    exact ⟨le_min (engComponents_nonneg s l m a) (by norm_num), min_le_right _ _⟩
  · rw [calculateEngagementScore_eq]
    unfold engQuality
    norm_num

theorem engagement_score_monotone_bounded_witness :
    calculateEngagementScore 1 0 0 0 ≤ calculateEngagementScore 2 0 0 0 ∧
    calculateEngagementScore 0 1 0 0 ≤ calculateEngagementScore 0 2 0 0 ∧
    calculateEngagementScore 0 0 1 0 ≤ calculateEngagementScore 0 0 2 0 ∧
    calculateEngagementScore 0 0 0 21 ≤ calculateEngagementScore 0 0 0 51 ∧
    (0 ≤ calculateEngagementScore 8 3 10 60 ∧ calculateEngagementScore 8 3 10 60 ≤ 100) :=
  ⟨engagement_score_monotone_bounded.1 1 2 0 0 0 (by norm_num),
   engagement_score_monotone_bounded.2.1 0 1 2 0 0 (by norm_num),
   engagement_score_monotone_bounded.2.2.1 0 0 1 2 0 (by norm_num),
   engagement_score_monotone_bounded.2.2.2.1 0 0 0 21 51 (by norm_num),
   engagement_score_monotone_bounded.2.2.2.2.1 8 3 10 60 (by norm_num)⟩

/-! ## Dictionary lemmas -/

theorem dictHas_cons (k' : String) (v' : Json) (rest : List (String × Json)) (k : String) :
    dictHas ((k', v') :: rest) k = (decide (k' = k) || dictHas rest k) := rfl

theorem dictGet_append (kvs t : List (String × Json)) (k : String) :
    dictGet (kvs ++ t) k =
      match dictGet kvs k with
      | some v => some v
      | none => dictGet t k := by
  induction kvs with
  | nil => rfl
  | cons p rest ih =>
    obtain ⟨k', v'⟩ := p
    by_cases h : k' = k <;> simp [dictGet, h, ih]

theorem dictGet_none_of_not_has {kvs : List (String × Json)} {k : String}
    (h : dictHas kvs k = false) : dictGet kvs k = none := by
  induction kvs with
  | nil => rfl
  | cons p rest ih =>
    obtain ⟨k', v'⟩ := p
    rw [dictHas_cons, Bool.or_eq_false_iff] at h
    have h1 : k' ≠ k := by simpa using h.1
    simp [dictGet, h1, ih h.2]

theorem dictHas_append (kvs t : List (String × Json)) (k : String) :
    dictHas (kvs ++ t) k = (dictHas kvs k || dictHas t k) := by
  simp [dictHas]

theorem dictSetdefault_get_same {kvs : List (String × Json)} {k : String} (v : Json)
    (h : dictHas kvs k = false) : dictGet (dictSetdefault kvs k v) k = some v := by
  unfold dictSetdefault
  rw [if_neg (by simp [h]), dictGet_append, dictGet_none_of_not_has h]
  simp [dictGet]

theorem dictSetdefault_get_of_some {kvs : List (String × Json)} {k k' : String} {v' : Json}
    (v : Json) (h : dictGet kvs k' = some v') :
    dictGet (dictSetdefault kvs k v) k' = some v' := by
  unfold dictSetdefault
  split
  · exact h
  · rw [dictGet_append, h]

theorem dictSetdefault_has_ne {kvs : List (String × Json)} {k k' : String} (v : Json)
    (hne : k ≠ k') : dictHas (dictSetdefault kvs k v) k' = dictHas kvs k' := by
  unfold dictSetdefault
  split
  · rfl
  · simp [dictHas_append, dictHas, hne]

theorem dictSetdefault_has_self (kvs : List (String × Json)) (k : String) (v : Json) :
    dictHas (dictSetdefault kvs k v) k = true := by
  unfold dictSetdefault
  split
  · assumption
  · simp [dictHas_append, dictHas]

theorem dictSet_get_self (kvs : List (String × Json)) (k : String) (v : Json) :
    dictGet (dictSet kvs k v) k = some v := by
  induction kvs with
  | nil => simp [dictSet, dictGet]
  | cons p rest ih =>
    obtain ⟨k', v'⟩ := p
    by_cases h : k' = k <;> simp [dictSet, dictGet, h, ih]

theorem dictSet_get_ne {kvs : List (String × Json)} {k k' : String} (v : Json)
    (hne : k ≠ k') : dictGet (dictSet kvs k v) k' = dictGet kvs k' := by
  induction kvs with
  | nil => simp [dictSet, dictGet, hne]
  | cons p rest ih =>
    obtain ⟨k'', v''⟩ := p
    by_cases h : k'' = k
    · subst h
      simp [dictSet, dictGet, hne]
    · simp [dictSet, dictGet, h, ih]

theorem dictSet_has_ne {kvs : List (String × Json)} {k k' : String} (v : Json)
    (hne : k ≠ k') : dictHas (dictSet kvs k v) k' = dictHas kvs k' := by
  induction kvs with
  | nil => simp [dictSet, dictHas, hne]
  | cons p rest ih =>
    obtain ⟨k'', v''⟩ := p
    by_cases h : k'' = k
    · subst h
      simp [dictSet, dictHas_cons]
    · show dictHas (if k'' = k then (k, v) :: rest else (k'', v'') :: dictSet rest k v) k'
        = dictHas ((k'', v'') :: rest) k'
      rw [if_neg h, dictHas_cons, dictHas_cons]
      exact congrArg (fun b => (decide (k'' = k') || b)) ih

theorem dictSet_has_of_has {kvs : List (String × Json)} {k' : String}
    (k : String) (v : Json) (h : dictHas kvs k' = true) :
    dictHas (dictSet kvs k v) k' = true := by
  by_cases hk : k = k'
  · subst hk
    clear h
    induction kvs with
    | nil => simp [dictSet, dictHas_cons]
    | cons p rest ih =>
      obtain ⟨k'', v''⟩ := p
      by_cases h2 : k'' = k
      · subst h2
        simp [dictSet, dictHas_cons]
      · show dictHas (if k'' = k then (k, v) :: rest else (k'', v'') :: dictSet rest k v) k = true
        rw [if_neg h2, dictHas_cons, ih]
        simp
  · rw [dictSet_has_ne v hk]
    exact h

/-! ## `applyLessonDefaults` lemmas -/

theorem applyLessonDefaults_get_of_some {kvs : List (String × Json)} {k : String} {v : Json}
    (h : dictGet kvs k = some v) : dictGet (applyLessonDefaults kvs) k = some v := by
  unfold applyLessonDefaults
  exact dictSetdefault_get_of_some _ (dictSetdefault_get_of_some _ (dictSetdefault_get_of_some _ h))

theorem applyLessonDefaults_difficulty {kvs : List (String × Json)}
    (h : dictHas kvs "difficulty_level" = false) :
    dictGet (applyLessonDefaults kvs) "difficulty_level" = some (.num 2) := by
  unfold applyLessonDefaults
  exact dictSetdefault_get_of_some _ (dictSetdefault_get_of_some _ (dictSetdefault_get_same _ h))

theorem applyLessonDefaults_duration {kvs : List (String × Json)}
    (h : dictHas kvs "estimated_duration" = false) :
    dictGet (applyLessonDefaults kvs) "estimated_duration" = some (.num 30) := by
  unfold applyLessonDefaults
  refine dictSetdefault_get_of_some _ (dictSetdefault_get_same _ ?_)
  rw [dictSetdefault_has_ne _ (by decide)]
  exact h

theorem applyLessonDefaults_tags {kvs : List (String × Json)}
    (h : dictHas kvs "tags" = false) :
    dictGet (applyLessonDefaults kvs) "tags" = some (.arr []) := by
  unfold applyLessonDefaults
  refine dictSetdefault_get_same _ ?_
  rw [dictSetdefault_has_ne _ (by decide), dictSetdefault_has_ne _ (by decide)]
  exact h

theorem applyLessonDefaults_has_of_has {kvs : List (String × Json)} {k : String}
    (h : dictHas kvs k = true) : dictHas (applyLessonDefaults kvs) k = true := by
  unfold applyLessonDefaults dictSetdefault
  split <;> split <;> split <;> simp_all [dictHas_append]

theorem applyLessonDefaults_has_difficulty (kvs : List (String × Json)) :
    dictHas (applyLessonDefaults kvs) "difficulty_level" = true := by
  unfold applyLessonDefaults
  rw [dictSetdefault_has_ne _ (by decide), dictSetdefault_has_ne _ (by decide)]
  exact dictSetdefault_has_self _ _ _

theorem applyLessonDefaults_has_duration (kvs : List (String × Json)) :
    dictHas (applyLessonDefaults kvs) "estimated_duration" = true := by
  unfold applyLessonDefaults
  rw [dictSetdefault_has_ne _ (by decide)]
  exact dictSetdefault_has_self _ _ _

theorem applyLessonDefaults_has_tags (kvs : List (String × Json)) :
    dictHas (applyLessonDefaults kvs) "tags" = true :=
  dictSetdefault_has_self _ _ _

/-! ## `parseLessonResponse` lemmas -/

theorem findMissingField_obj (fs : List String) (kvs : List (String × Json)) :
    findMissingField fs (.obj kvs) = .ok (fs.find? (fun f => !dictHas kvs f)) := by
  induction fs with
  | nil => rfl
  | cons f rest ih =>
    cases h : dictHas kvs f <;>
      simp [findMissingField, pyFieldNotIn, h, List.find?_cons, ih]

theorem parseLessonResponse_obj (jsonLoads : String → Option Json) (s : String)
    (kvs : List (String × Json)) (h : jsonLoads (cleanResponse s) = some (.obj kvs)) :
    parseLessonResponse jsonLoads s =
      match requiredFields.find? (fun f => !dictHas kvs f) with
      | some f => .error (.missingField f)
      | none => .ok (.obj (applyLessonDefaults kvs)) := by
  simp only [parseLessonResponse, h, findMissingField_obj]
  rcases requiredFields.find? (fun f => !dictHas kvs f) with _ | f <;> rfl

theorem parseLessonResponse_ok_of_required (jsonLoads : String → Option Json) (s : String)
    (kvs : List (String × Json)) (h : jsonLoads (cleanResponse s) = some (.obj kvs))
    (hall : ∀ f ∈ requiredFields, dictHas kvs f = true) :
    parseLessonResponse jsonLoads s = .ok (.obj (applyLessonDefaults kvs)) := by
  rw [parseLessonResponse_obj jsonLoads s kvs h]
  have hnone : requiredFields.find? (fun f => !dictHas kvs f) = none := by
    rw [List.find?_eq_none]
    intro f hf
    simp [hall f hf]
  rw [hnone]

/-! ## Claim theorems: structured-output parsing -/

/-- C2: the structured-output parser implements the two-phase contract.
After fence stripping, a structural parse failure yields the
`SchemaValidationError` analogue with the raw text retained (never an empty
object); on a successful parse into an object, an absent required field
yields the error naming the (first) absent field; when all required fields
are present, the defaults `difficulty_level := 2`, `estimated_duration := 30`,
`tags := []` are applied exactly to the absent optional fields, never
overwriting a present value — so a result missing optional `tags` succeeds
with the default, while one missing required `scenario` errors. -/
theorem parse_lesson_two_phase (jsonLoads : String → Option Json) (s : String) :
    (jsonLoads (cleanResponse s) = none →
      parseLessonResponse jsonLoads s = .error (.invalidJson s)) ∧
    (∀ kvs : List (String × Json), jsonLoads (cleanResponse s) = some (.obj kvs) →
      (∀ f, requiredFields.find? (fun g => !dictHas kvs g) = some f →
        f ∈ requiredFields ∧ dictHas kvs f = false ∧
        parseLessonResponse jsonLoads s = .error (.missingField f)) ∧
      ((∀ f ∈ requiredFields, dictHas kvs f = true) →
        parseLessonResponse jsonLoads s = .ok (.obj (applyLessonDefaults kvs))) ∧
      (∀ k v, dictGet kvs k = some v → dictGet (applyLessonDefaults kvs) k = some v) ∧
      (dictHas kvs "difficulty_level" = false →
        dictGet (applyLessonDefaults kvs) "difficulty_level" = some (.num 2)) ∧
      (dictHas kvs "estimated_duration" = false →
        dictGet (applyLessonDefaults kvs) "estimated_duration" = some (.num 30)) ∧
      (dictHas kvs "tags" = false →
        dictGet (applyLessonDefaults kvs) "tags" = some (.arr [])) ∧
      (dictHas kvs "scenario" = false →
        ∃ f, parseLessonResponse jsonLoads s = .error (.missingField f))) := by
  constructor
  · intro h
    simp [parseLessonResponse, h]
  · intro kvs hkvs
    refine ⟨?_, ?_, ?_, ?_, ?_, ?_, ?_⟩
    · intro f hf
      refine ⟨List.mem_of_find?_eq_some hf, ?_, ?_⟩
      · have := List.find?_some hf
        simpa using this
      · rw [parseLessonResponse_obj jsonLoads s kvs hkvs, hf]
    · exact parseLessonResponse_ok_of_required jsonLoads s kvs hkvs
    · intro k v h
      exact applyLessonDefaults_get_of_some h
    · exact applyLessonDefaults_difficulty
    · exact applyLessonDefaults_duration
    · exact applyLessonDefaults_tags
    · intro hscen
      cases hfind : requiredFields.find? (fun g => !dictHas kvs g) with
      | none =>
        exfalso
        have := List.find?_eq_none.mp hfind "scenario" (by decide)
        simp [hscen] at this
      | some f =>
        refine ⟨f, ?_⟩
        rw [parseLessonResponse_obj jsonLoads s kvs hkvs, hfind]

theorem parse_lesson_two_phase_witness :
    parseLessonResponse fixtureLoads "not json at all" =
      .error (.invalidJson "not json at all") ∧
    parseLessonResponse fixtureLoads "NODESC" = .error (.missingField "description") ∧
    parseLessonResponse fixtureLoads "REQ" =
      .ok (.obj
        [ ("title", .str "T"), ("description", .str "D"), ("scenario", .str "S")
        , ("objectives", .arr [.str "O1"]), ("content", .obj [])
        , ("difficulty_level", .num 2), ("estimated_duration", .num 30)
        , ("tags", .arr []) ]) :=
  ⟨(parse_lesson_two_phase fixtureLoads "not json at all").1 rfl,
   (((parse_lesson_two_phase fixtureLoads "NODESC").2 [("title", .str "T")] rfl).1
     "description" rfl).2.2,
   ((parse_lesson_two_phase fixtureLoads "REQ").2
     [ ("title", .str "T"), ("description", .str "D"), ("scenario", .str "S")
     , ("objectives", .arr [.str "O1"]), ("content", .obj []) ] rfl).2.1
     (by decide)⟩

/-! ## Claim theorems: analytics fallback -/

/-- C3: for every usage-counter input (`totalSessions = 0` included) and any
provider failure or JSON-decode failure during insight generation, the
analytics engine returns the deterministic fallback insights.  The fallback
is a total function (it cannot raise), its summary sentence is derived from
the raw counters, its three lists have exactly 3 items each, and all five
`ProgressReport` fields are present. -/
theorem insights_fallback_shape (jsonLoads : String → Option Json)
    (gatewayOutcome : Except String GatewayResponse)
    (stats : SessionStats) (pattern : List (String × Json)) :
    (∀ e, gatewayOutcome = .error e →
      generateAIInsights jsonLoads gatewayOutcome stats pattern =
        .obj (fallbackInsights stats pattern)) ∧
    (∀ resp, gatewayOutcome = .ok resp → jsonLoads resp.content = none →
      generateAIInsights jsonLoads gatewayOutcome stats pattern =
        .obj (fallbackInsights stats pattern)) ∧
    dictGet (fallbackInsights stats pattern) "summary" =
      some (.str ("User completed " ++ toString stats.lessonsCompleted
        ++ " lessons across " ++ toString stats.totalSessions
        ++ " sessions with " ++ toString stats.totalMessages
        ++ " total interactions.")) ∧
    (∃ xs, dictGet (fallbackInsights stats pattern) "strengths" = some (.arr xs) ∧
      xs.length = 3) ∧
    (∃ xs, dictGet (fallbackInsights stats pattern) "areas_for_improvement" =
      some (.arr xs) ∧ xs.length = 3) ∧
    (∃ xs, dictGet (fallbackInsights stats pattern) "recommendations" = some (.arr xs) ∧
      xs.length = 3) ∧
    (∃ d, dictGet (fallbackInsights stats pattern) "detailed_analysis" =
      some (.obj d)) := by
  refine ⟨?_, ?_, rfl, ⟨_, rfl, rfl⟩, ⟨_, rfl, rfl⟩, ⟨_, rfl, rfl⟩, ⟨_, rfl⟩⟩
  · intro e he
    subst he
    rfl
  · intro resp hresp hload
    subst hresp
    simp [generateAIInsights, hload]

theorem insights_fallback_shape_witness :
    generateAIInsights (fun _ => none) (.error "provider down")
        ⟨0, 0, 0, 0⟩ [] = .obj (fallbackInsights ⟨0, 0, 0, 0⟩ []) ∧
    generateAIInsights (fun _ => none) (.ok ⟨"garbage", 1⟩)
        ⟨0, 0, 0, 0⟩ [] = .obj (fallbackInsights ⟨0, 0, 0, 0⟩ []) :=
  ⟨(insights_fallback_shape (fun _ => none) (.error "provider down") ⟨0, 0, 0, 0⟩ []).1
     "provider down" rfl,
   (insights_fallback_shape (fun _ => none) (.ok ⟨"garbage", 1⟩) ⟨0, 0, 0, 0⟩ []).2.1
     ⟨"garbage", 1⟩ rfl rfl⟩

/-! ## Claim theorems: document service -/

/-- C8: for every filename whose lower-cased `pathlib` extension is outside
the fixed supported-format table, `is_supported` returns `false` and
`parse_document` fails with the unsupported-format error for any byte
content; the quantification over every decoder oracle shows no decoder is
consulted (fail fast, no partial decode). -/
theorem unsupported_extension_fail_fast (filename : String)
    (h : supportedExtensions.contains (pyLower (pathSuffix filename)) = false) :
    isSupported filename = false ∧
    ∀ (decoder : String → List (Fin 256) → String → Except String String)
      (mimeGuess : String → Option String) (content : List (Fin 256)),
      parseDocument decoder mimeGuess content filename =
        .error (.unsupportedFormat (pyLower (pathSuffix filename))) := by
  constructor
  · exact h
  · intro decoder mimeGuess content
    have hc : ¬ (supportedExtensions.contains (pyLower (pathSuffix filename)) = true) :=
      fun hmem => by rw [hmem] at h; exact Bool.noConfusion h
    simp only [parseDocument]
    rw [if_neg hc]

theorem unsupported_extension_fail_fast_witness :
    isSupported "slides.pptx" = false ∧
    parseDocument (fun _ _ _ => .ok "decoded") (fun _ => none) [] "slides.pptx" =
      .error (.unsupportedFormat (pyLower (pathSuffix "slides.pptx"))) :=
  ⟨(unsupported_extension_fail_fast "slides.pptx" (by decide)).1,
   (unsupported_extension_fail_fast "slides.pptx" (by decide)).2
     (fun _ _ _ => .ok "decoded") (fun _ => none) []⟩

theorem latin1Char_some (b : Fin 256) : latin1Char b = some (Char.ofNat b.val) := by
  unfold latin1Char
  rw [if_pos]
  have := b.isLt
  omega

theorem latin1Chars_some (bs : List (Fin 256)) :
    latin1Chars bs = some (bs.map (fun b => Char.ofNat b.val)) := by
  induction bs with
  | nil => rfl
  | cons b t ih => simp [latin1Chars, latin1Char_some, ih]

theorem latin1Decode_some (bs : List (Fin 256)) :
    latin1Decode bs = some ⟨bs.map (fun b => Char.ofNat b.val)⟩ := by
  unfold latin1Decode
  rw [latin1Chars_some]
  rfl

/-- C9: plain-text decoding is total.  UTF-8 decoding (an oracle, since it is
a library call) is attempted first and its result returned verbatim; on
failure the Latin-1 fallback decodes every byte sequence (each byte maps to
the code point of its value, always valid), so the error branch is
unreachable and `_parse_text` never raises. -/
theorem parse_text_total (utf8Decode : List (Fin 256) → Option String)
    (bytes : List (Fin 256)) :
    (∀ s, utf8Decode bytes = some s → parseText utf8Decode bytes = .ok s) ∧
    (utf8Decode bytes = none →
      parseText utf8Decode bytes = .ok ⟨bytes.map (fun b => Char.ofNat b.val)⟩) ∧
    ∃ s, parseText utf8Decode bytes = .ok s := by
  refine ⟨?_, ?_, ?_⟩
  · intro s h
    simp [parseText, h]
  · intro h
    simp [parseText, h, latin1Decode_some]
  · cases h : utf8Decode bytes with
    | some s => exact ⟨s, by simp [parseText, h]⟩
    | none =>
      exact ⟨⟨bytes.map (fun b => Char.ofNat b.val)⟩,
        by simp [parseText, h, latin1Decode_some]⟩

theorem parse_text_total_witness :
    parseText (fun _ => some "ok") [(65 : Fin 256)] = .ok "ok" ∧
    parseText (fun _ => none) [(65 : Fin 256)] =
      .ok ⟨[(65 : Fin 256)].map (fun b => Char.ofNat b.val)⟩ :=
  ⟨(parse_text_total (fun _ => some "ok") [(65 : Fin 256)]).1 "ok" rfl,
   (parse_text_total (fun _ => none) [(65 : Fin 256)]).2.1 rfl⟩

/-! ## Claim theorems: provider dispatch -/

/-- C10: for every provider tag outside the three configured providers,
`generate_response` raises the unsupported-provider error naming the tag;
the quantification over every adapter triple shows no configured provider is
silently substituted. -/
theorem unsupported_provider_rejected (adapters : ProviderAdapters)
    (messages : List (String × String)) (provider : String)
    (systemPrompt : Option String) (temperature : ℚ) (maxTokens : ℕ)
    (h1 : provider ≠ "openai") (h2 : provider ≠ "anthropic")
    (h3 : provider ≠ "deepseek") :
    generateResponse adapters messages provider systemPrompt temperature maxTokens =
      .error (.unsupportedProvider provider) := by
  unfold generateResponse
  rw [if_neg h1, if_neg h2, if_neg h3]

theorem unsupported_provider_rejected_witness :
    generateResponse
      ⟨fun _ _ _ _ => .ok ⟨"openai says hi", 1⟩,
       fun _ _ _ _ => .ok ⟨"anthropic says hi", 1⟩,
       fun _ _ _ _ => .ok ⟨"deepseek says hi", 1⟩⟩
      [("user", "hello")] "gemini" none (7 / 10) 100 =
      .error (.unsupportedProvider "gemini") :=
  unsupported_provider_rejected _ [("user", "hello")] "gemini" none (7 / 10) 100
    (by decide) (by decide) (by decide)

/-! ## Claim theorems: refinement (C5) -/

theorem parseLessonResponse_ok_inv {jsonLoads : String → Option Json} {s : String}
    {j : Json} (h : parseLessonResponse jsonLoads s = .ok j) :
    ∃ kvs, jsonLoads (cleanResponse s) = some (.obj kvs) ∧
      (∀ f ∈ requiredFields, dictHas kvs f = true) ∧
      j = .obj (applyLessonDefaults kvs) := by
  cases hload : jsonLoads (cleanResponse s) with
  | none =>
    simp only [parseLessonResponse, hload] at h
    exact absurd h (by simp)
  | some data =>
    simp only [parseLessonResponse, hload] at h
    cases hf : findMissingField requiredFields data with
    | error u =>
      rw [hf] at h
      exact absurd h (by simp)
    | ok o =>
      rw [hf] at h
      cases o with
      | some f => exact absurd h (by simp)
      | none =>
        cases data with
        | obj kvs =>
          refine ⟨kvs, rfl, ?_, ?_⟩
          · rw [findMissingField_obj] at hf
            have hnone : requiredFields.find? (fun g => !dictHas kvs g) = none :=
              Except.ok.inj hf
            intro f hmem
            have := List.find?_eq_none.mp hnone f hmem
            simpa using this
          · simpa using h.symm
        | null => exact absurd h (by simp)
        | bool b => exact absurd h (by simp)
        | num n => exact absurd h (by simp)
        | str t => exact absurd h (by simp)
        | arr xs => exact absurd h (by simp)

/-- C5 counterexample: a prior draft carrying `difficulty_level = 4` refined
through a model response that omits every optional field produces a draft
whose `difficulty_level` is the schema default 2, not the prior draft's 4 —
the claim that refinement falls back to the prior draft's value for every
omitted field fails on this input. -/
theorem refine_prior_values_counterexample :
    dictGet fixturePriorDraft "difficulty_level" = some (.num 4) ∧
    refineLesson fixtureLoads fixtureDumps fixtureGatewayReq fixturePriorDraft
        "Shorten the scenario" "anthropic" =
      .ok (.obj
        [ ("title", .str "T"), ("description", .str "D"), ("scenario", .str "S")
        , ("objectives", .arr [.str "O1"]), ("content", .obj [])
        , ("difficulty_level", .num 2), ("estimated_duration", .num 30)
        , ("tags", .arr []), ("tokens_used", .num 5) ]) ∧
    Json.num 2 ≠ Json.num 4 := by
  refine ⟨rfl, rfl, ?_⟩
  intro hcontra
  injection hcontra with hval
  omega

/-- C5 (amended): refinement replaces the whole draft with the model's
re-validated output.  The result is a function of the gateway response alone
(two different prior drafts give identical results whenever the gateway
returns the same response); a required field omitted from the refined output
is a hard failure; an omitted optional field receives the schema default —
`difficulty_level` 2, `estimated_duration` 30, `tags` `[]` — not the prior
draft's value. -/
theorem refine_replaces_whole_draft :
    (∀ (jsonLoads : String → Option Json) (jsonDumps : List (String × Json) → String)
       (r : Except String GatewayResponse) (p₁ p₂ : List (String × Json))
       (rp prov : String),
      refineLesson jsonLoads jsonDumps (fun _ => r) p₁ rp prov =
        refineLesson jsonLoads jsonDumps (fun _ => r) p₂ rp prov) ∧
    (∀ (jsonLoads : String → Option Json) (jsonDumps : List (String × Json) → String)
       (gateway : GatewayRequest → Except String GatewayResponse)
       (prior : List (String × Json)) (rp prov : String)
       (resp : GatewayResponse) (kvs : List (String × Json)),
      gateway (refineRequest jsonDumps prior rp prov) = .ok resp →
      jsonLoads (cleanResponse resp.content) = some (.obj kvs) →
      (∀ f, requiredFields.find? (fun g => !dictHas kvs g) = some f →
        refineLesson jsonLoads jsonDumps gateway prior rp prov =
          .error (.missingField f)) ∧
      ((∀ f ∈ requiredFields, dictHas kvs f = true) →
        refineLesson jsonLoads jsonDumps gateway prior rp prov =
          .ok (.obj (dictSet (applyLessonDefaults kvs) "tokens_used"
            (.num resp.tokensUsed))) ∧
        (dictHas kvs "difficulty_level" = false →
          dictGet (dictSet (applyLessonDefaults kvs) "tokens_used"
            (.num resp.tokensUsed)) "difficulty_level" = some (.num 2)) ∧
        (dictHas kvs "estimated_duration" = false →
          dictGet (dictSet (applyLessonDefaults kvs) "tokens_used"
            (.num resp.tokensUsed)) "estimated_duration" = some (.num 30)) ∧
        (dictHas kvs "tags" = false →
          dictGet (dictSet (applyLessonDefaults kvs) "tokens_used"
            (.num resp.tokensUsed)) "tags" = some (.arr [])))) := by
  constructor
  · intro jsonLoads jsonDumps r p₁ p₂ rp prov
    rfl
  · intro jsonLoads jsonDumps gateway prior rp prov resp kvs hg hload
    constructor
    · intro f hf
      simp only [refineLesson, refineFromResponse, hg]
      rw [parseLessonResponse_obj jsonLoads resp.content kvs hload, hf]
    · intro hall
      have hparse := parseLessonResponse_ok_of_required jsonLoads resp.content kvs hload hall
      refine ⟨?_, ?_, ?_, ?_⟩
      · simp only [refineLesson, refineFromResponse, hg]
        rw [hparse]
        rfl
      · intro hd
        rw [dictSet_get_ne _ (by decide)]
        exact applyLessonDefaults_difficulty hd
      · intro hd
        rw [dictSet_get_ne _ (by decide)]
        exact applyLessonDefaults_duration hd
      · intro hd
        rw [dictSet_get_ne _ (by decide)]
        exact applyLessonDefaults_tags hd

theorem refine_replaces_whole_draft_witness :
    refineLesson fixtureLoads fixtureDumps (fun _ => .ok ⟨"REQ", 5⟩) fixturePriorDraft
        "Shorten it" "anthropic" =
      refineLesson fixtureLoads fixtureDumps (fun _ => .ok ⟨"REQ", 5⟩) []
        "Shorten it" "anthropic" ∧
    refineLesson fixtureLoads fixtureDumps fixtureGatewayReq [] "Shorten it" "anthropic" =
      .ok (.obj (dictSet (applyLessonDefaults
        [ ("title", .str "T"), ("description", .str "D"), ("scenario", .str "S")
        , ("objectives", .arr [.str "O1"]), ("content", .obj []) ])
        "tokens_used" (.num 5))) :=
  ⟨refine_replaces_whole_draft.1 fixtureLoads fixtureDumps (.ok ⟨"REQ", 5⟩)
     fixturePriorDraft [] "Shorten it" "anthropic",
   ((refine_replaces_whole_draft.2 fixtureLoads fixtureDumps fixtureGatewayReq []
     "Shorten it" "anthropic" ⟨"REQ", 5⟩
     [ ("title", .str "T"), ("description", .str "D"), ("scenario", .str "S")
     , ("objectives", .arr [.str "O1"]), ("content", .obj []) ] rfl rfl).2
     (by decide)).1⟩

/-! ## Claim theorems: generation pipeline (C6) -/

/-- C6 counterexample: with two source documents, a gateway response whose
payload has an empty `objectives` list and `difficulty_level = 7` passes
validation unchanged — the pipeline does call the gateway exactly once, but
the returned draft violates both `objectives.length ≥ 1` and
`difficulty_level ∈ [1,5]`, so the claim's validation part fails on the
code. -/
theorem generate_lesson_counterexample :
    (generateLessonFromDocuments fixtureLoads fixtureGatewayGen
        "Create a negotiation lesson" [("a.txt", "Doc one text"), ("b.txt", "Doc two text")]
        "negotiation" "anthropic" none).1.length = 1 ∧
    ∃ xs dl,
      (generateLessonFromDocuments fixtureLoads fixtureGatewayGen
          "Create a negotiation lesson" [("a.txt", "Doc one text"), ("b.txt", "Doc two text")]
          "negotiation" "anthropic" none).2 =
        .ok (.obj
          [ ("title", .str "T"), ("description", .str "D"), ("scenario", .str "S")
          , ("objectives", .arr xs), ("content", .obj [])
          , ("difficulty_level", .num dl), ("estimated_duration", .num 30)
          , ("tags", .arr []), ("ai_provider", .str "anthropic")
          , ("tokens_used", .num 5) ]) ∧
      xs.length = 0 ∧ ¬ (1 ≤ dl ∧ dl ≤ 5) := by
  refine ⟨rfl, [], 7, rfl, rfl, ?_⟩
  omega

/-- C6 (amended): for every generation request, `generate_lesson_from_documents`
issues exactly one gateway request; every draft it returns successfully
contains the five required fields, carries `difficulty_level`,
`estimated_duration` and `tags` keys (defaulted when the model omitted
them), and records the requested provider tag — but the code places no
bound on the length of `objectives` or the value of `difficulty_level`. -/
theorem generate_lesson_once_and_keys (jsonLoads : String → Option Json)
    (gateway : GatewayRequest → Except String GatewayResponse)
    (prompt : String) (documents : List (String × String)) (lessonType : String)
    (provider : String) (additionalContext : Option String) :
    (generateLessonFromDocuments jsonLoads gateway prompt documents lessonType
        provider additionalContext).1 =
      [lessonGenerationRequest prompt documents lessonType provider additionalContext] ∧
    (∀ j, (generateLessonFromDocuments jsonLoads gateway prompt documents lessonType
        provider additionalContext).2 = .ok j →
      (∀ f ∈ requiredFields, jsonHas j f = true) ∧
      jsonHas j "difficulty_level" = true ∧
      jsonHas j "estimated_duration" = true ∧
      jsonHas j "tags" = true ∧
      jsonGet j "ai_provider" = some (.str provider)) := by
  constructor
  · cases hg : gateway (lessonGenerationRequest prompt documents lessonType provider
      additionalContext) with
    | error e => simp [generateLessonFromDocuments, hg]
    | ok resp =>
      cases hp : parseLessonResponse jsonLoads resp.content with
      | error e => simp [generateLessonFromDocuments, hg, hp]
      | ok lessonData =>
        obtain ⟨kvs, _, _, hobj⟩ := parseLessonResponse_ok_inv hp
        subst hobj
        simp [generateLessonFromDocuments, hg, hp, jsonSetItem]
  · intro j hj
    simp only [generateLessonFromDocuments] at hj
    cases hg : gateway (lessonGenerationRequest prompt documents lessonType provider
      additionalContext) with
    | error e =>
      rw [hg] at hj
      exact absurd hj (by simp)
    | ok resp =>
      simp only [hg] at hj
      cases hp : parseLessonResponse jsonLoads resp.content with
      | error e =>
        rw [hp] at hj
        exact absurd hj (by simp)
      | ok lessonData =>
        rw [hp] at hj
        obtain ⟨kvs, _, hall, hobj⟩ := parseLessonResponse_ok_inv hp
        subst hobj
        simp only [jsonSetItem] at hj
        have hj' : Json.obj (dictSet (dictSet (applyLessonDefaults kvs) "ai_provider"
            (.str provider)) "tokens_used" (.num resp.tokensUsed)) = j := by
          simpa using hj
        subst hj'
        refine ⟨?_, ?_, ?_, ?_, ?_⟩
        · intro f hmem
          exact dictSet_has_of_has _ _ (dictSet_has_of_has _ _
            (applyLessonDefaults_has_of_has (hall f hmem)))
        · exact dictSet_has_of_has _ _ (dictSet_has_of_has _ _
            (applyLessonDefaults_has_difficulty kvs))
        · exact dictSet_has_of_has _ _ (dictSet_has_of_has _ _
            (applyLessonDefaults_has_duration kvs))
        · exact dictSet_has_of_has _ _ (dictSet_has_of_has _ _
            (applyLessonDefaults_has_tags kvs))
        · show dictGet (dictSet (dictSet (applyLessonDefaults kvs) "ai_provider"
            (.str provider)) "tokens_used" (.num resp.tokensUsed)) "ai_provider" =
              some (.str provider)
          rw [dictSet_get_ne _ (by decide)]
          exact dictSet_get_self _ _ _

theorem generate_lesson_once_and_keys_witness :
    (generateLessonFromDocuments fixtureLoads fixtureGatewayReq "A prompt"
        [("a.txt", "Doc one text")] "custom" "anthropic" none).1 =
      [lessonGenerationRequest "A prompt" [("a.txt", "Doc one text")] "custom"
        "anthropic" none] ∧
    ((∀ f ∈ requiredFields, jsonHas (.obj
        [ ("title", .str "T"), ("description", .str "D"), ("scenario", .str "S")
        , ("objectives", .arr [.str "O1"]), ("content", .obj [])
        , ("difficulty_level", .num 2), ("estimated_duration", .num 30)
        , ("tags", .arr []), ("ai_provider", .str "anthropic")
        , ("tokens_used", .num 5) ]) f = true) ∧
      jsonHas (.obj
        [ ("title", .str "T"), ("description", .str "D"), ("scenario", .str "S")
        , ("objectives", .arr [.str "O1"]), ("content", .obj [])
        , ("difficulty_level", .num 2), ("estimated_duration", .num 30)
        , ("tags", .arr []), ("ai_provider", .str "anthropic")
        , ("tokens_used", .num 5) ]) "difficulty_level" = true ∧
      jsonHas (.obj
        [ ("title", .str "T"), ("description", .str "D"), ("scenario", .str "S")
        , ("objectives", .arr [.str "O1"]), ("content", .obj [])
        , ("difficulty_level", .num 2), ("estimated_duration", .num 30)
        , ("tags", .arr []), ("ai_provider", .str "anthropic")
        , ("tokens_used", .num 5) ]) "estimated_duration" = true ∧
      jsonHas (.obj
        [ ("title", .str "T"), ("description", .str "D"), ("scenario", .str "S")
        , ("objectives", .arr [.str "O1"]), ("content", .obj [])
        , ("difficulty_level", .num 2), ("estimated_duration", .num 30)
        , ("tags", .arr []), ("ai_provider", .str "anthropic")
        , ("tokens_used", .num 5) ]) "tags" = true ∧
      jsonGet (.obj
        [ ("title", .str "T"), ("description", .str "D"), ("scenario", .str "S")
        , ("objectives", .arr [.str "O1"]), ("content", .obj [])
        , ("difficulty_level", .num 2), ("estimated_duration", .num 30)
        , ("tags", .arr []), ("ai_provider", .str "anthropic")
        , ("tokens_used", .num 5) ]) "ai_provider" = some (.str "anthropic")) :=
  ⟨(generate_lesson_once_and_keys fixtureLoads fixtureGatewayReq "A prompt"
      [("a.txt", "Doc one text")] "custom" "anthropic" none).1,
   (generate_lesson_once_and_keys fixtureLoads fixtureGatewayReq "A prompt"
      [("a.txt", "Doc one text")] "custom" "anthropic" none).2
     (.obj
        [ ("title", .str "T"), ("description", .str "D"), ("scenario", .str "S")
        , ("objectives", .arr [.str "O1"]), ("content", .obj [])
        , ("difficulty_level", .num 2), ("estimated_duration", .num 30)
        , ("tags", .arr []), ("ai_provider", .str "anthropic")
        , ("tokens_used", .num 5) ]) rfl⟩

/-! ## Fence-stripping lemmas (C7) -/

theorem dropWhile_cons_false {p : Char → Bool} {c : Char} (h : p c = false)
    (l : List Char) : (c :: l).dropWhile p = c :: l := by
  simp [List.dropWhile_cons, h]

theorem pyStripData_eq_self {l : List Char}
    (hhead : ∀ c, l.head? = some c → pyIsSpace c = false)
    (hlast : ∀ c, l.getLast? = some c → pyIsSpace c = false) :
    pyStripData l = l := by
  unfold pyStripData
  have h1 : l.dropWhile pyIsSpace = l := by
    cases l with
    | nil => rfl
    | cons a t => exact dropWhile_cons_false (hhead a rfl) t
  rw [h1]
  have h2 : l.reverse.dropWhile pyIsSpace = l.reverse := by
    cases hr : l.reverse with
    | nil => rfl
    | cons b t =>
      have hb : l.getLast? = some b := by
        rw [← List.head?_reverse, hr]
        rfl
      exact dropWhile_cons_false (hlast b hb) t
  rw [h2, List.reverse_reverse]

theorem pyStripData_cons_space {c : Char} (h : pyIsSpace c = true) (l : List Char) :
    pyStripData (c :: l) = pyStripData l := by
  unfold pyStripData
  rw [List.dropWhile_cons, if_pos h]

theorem pyStripData_append_space {c : Char} (h : pyIsSpace c = true) (l : List Char) :
    pyStripData (l ++ [c]) = pyStripData l := by
  unfold pyStripData
  rw [List.dropWhile_append]
  cases hd : l.dropWhile pyIsSpace with
  | nil =>
    simp [List.dropWhile_cons, h]
  | cons a t =>
    rw [if_neg (by simp)]
    rw [show ((a :: t) ++ [c]).reverse = c :: (a :: t).reverse from by
      rw [List.reverse_append]
      rfl]
    rw [List.dropWhile_cons, if_pos h]

theorem isPrefixOf_of_append {p q l : List Char} (h : (p ++ q).isPrefixOf l = true) :
    p.isPrefixOf l = true := by
  induction p generalizing l with
  | nil => cases l <;> rfl
  | cons a p' ih =>
    cases l with
    | nil => simp [List.isPrefixOf] at h
    | cons b t =>
      simp only [List.cons_append, List.isPrefixOf, Bool.and_eq_true] at h ⊢
      exact ⟨h.1, ih h.2⟩

theorem cleanData_wrap (cs : List Char) :
    cleanData ("```json\n".data ++ (cs ++ "\n```".data)) = pyStripData cs := by
  have hstrip : pyStripData ("```json\n".data ++ (cs ++ "\n```".data)) =
      "```json\n".data ++ (cs ++ "\n```".data) := by
    apply pyStripData_eq_self
    · intro c hc
      have hc' : c = '`' := by
        have : ("```json\n".data ++ (cs ++ "\n```".data)).head? = some '`' := rfl
        rw [this] at hc
        exact (Option.some.inj hc).symm
      rw [hc']
      rfl
    · intro c hc
      have hlast : ("```json\n".data ++ (cs ++ "\n```".data)).getLast? = some '`' := by
        rw [show ("\n```".data : List Char) = '\n' :: ['`', '`', '`'] from rfl]
        rw [← List.append_assoc, List.getLast?_append_cons]
        rfl
      rw [hlast] at hc
      rw [(Option.some.inj hc).symm]
      rfl
  simp only [cleanData]
  rw [hstrip]
  rw [if_pos (show "```json".data.isPrefixOf
    ("```json\n".data ++ (cs ++ "\n```".data)) = true from rfl)]
  rw [show ("```json\n".data ++ (cs ++ "\n```".data)).drop 7 =
    '\n' :: (cs ++ "\n```".data) from rfl]
  have hsuf : "```".data.isSuffixOf ('\n' :: (cs ++ "\n```".data)) = true := by
    rw [List.isSuffixOf_iff_suffix]
    exact ⟨'\n' :: (cs ++ ['\n']), by simp⟩
  rw [if_pos hsuf]
  have hsplit : ('\n' :: (cs ++ "\n```".data) : List Char) =
      ('\n' :: (cs ++ ['\n'])) ++ ['`', '`', '`'] := by
    simp
  rw [hsplit]
  rw [List.take_left' (by simp [List.length_append])]
  rw [pyStripData_cons_space (by decide), pyStripData_append_space (by decide)]

theorem cleanData_payload (cs : List Char)
    (h0 : pyStripData cs = cs)
    (h1 : "```".data.isPrefixOf cs = false)
    (h2 : "```".data.isSuffixOf cs = false) :
    cleanData cs = cs := by
  have h1' : "```json".data.isPrefixOf cs = false := by
    cases hh : "```json".data.isPrefixOf cs with
    | false => rfl
    | true =>
      exfalso
      have h3 : "```".data.isPrefixOf cs = true :=
        isPrefixOf_of_append (p := "```".data) (q := "json".data) hh
      rw [h3] at h1
      exact Bool.noConfusion h1
  have hn1 : ¬("```json".data.isPrefixOf cs = true) := by
    rw [h1']
    exact Bool.noConfusion
  have hn2 : ¬("```".data.isPrefixOf cs = true) := by
    rw [h1]
    exact Bool.noConfusion
  have hn3 : ¬("```".data.isSuffixOf cs = true) := by
    rw [h2]
    exact Bool.noConfusion
  simp only [cleanData]
  rw [h0, if_neg hn1, if_neg hn2, if_neg hn3]
  exact h0

/-- C7: for every JSON payload, parsing the payload wrapped in Markdown code
fences (```` ```json ```` before, ```` ``` ```` after) yields a result
identical to parsing the unfenced payload.  The hypotheses capture being a
JSON payload: a JSON text neither begins nor ends with whitespace or
backticks, so it is strip-stable and carries no fence markers at its ends. -/
theorem fenced_parse_equiv (jsonLoads : String → Option Json) (s : String)
    (h0 : pyStrip s = s)
    (h1 : "```".data.isPrefixOf s.data = false)
    (h2 : "```".data.isSuffixOf s.data = false) :
    cleanResponse ("```json\n" ++ s ++ "\n```") = cleanResponse s ∧
    (∀ v, jsonLoads (cleanResponse s) = some v →
      parseLessonResponse jsonLoads ("```json\n" ++ s ++ "\n```") =
        parseLessonResponse jsonLoads s) := by
  have h0' : pyStripData s.data = s.data := congrArg String.data h0
  have hdata : ("```json\n" ++ s ++ "\n```").data =
      "```json\n".data ++ (s.data ++ "\n```".data) := by
    obtain ⟨cs⟩ := s
    exact List.append_assoc "```json\n".data cs "\n```".data
  have hclean : cleanResponse ("```json\n" ++ s ++ "\n```") = cleanResponse s := by
    unfold cleanResponse
    refine congrArg String.mk ?_
    calc cleanData ("```json\n" ++ s ++ "\n```").data
        = pyStripData s.data := by rw [hdata, cleanData_wrap]
      _ = s.data := h0'
      _ = cleanData s.data := (cleanData_payload s.data h0' h1 h2).symm
  refine ⟨hclean, ?_⟩
  intro v hv
  simp [parseLessonResponse, hclean, hv]

theorem fenced_parse_equiv_witness :
    cleanResponse ("```json\n" ++ "\x7b\x7d" ++ "\n```") = cleanResponse "\x7b\x7d" ∧
    parseLessonResponse fixtureLoads ("```json\n" ++ "\x7b\x7d" ++ "\n```") =
      parseLessonResponse fixtureLoads "\x7b\x7d" :=
  ⟨(fenced_parse_equiv fixtureLoads "\x7b\x7d" rfl rfl rfl).1,
   (fenced_parse_equiv fixtureLoads "\x7b\x7d" rfl rfl rfl).2 (.obj []) rfl⟩
